import Mathlib

/-!
Verification of the `peachpasswords` model-training package
(`packages/model-training/src/features.py` and `dataset.py`).

The Python code is shallowly embedded: numeric field values become `ℚ`
(the Python floats involved are produced by exact divisions of small
integers, so `ℚ` models them losslessly), strings become `String`,
`re`-patterns — all of which are literal substrings compiled with
`re.I` — become case-insensitive substring search, and the stateful
`while` loop of `augment_dataset` becomes a fuel-indexed recursion over
an explicit stream of random draws.
-/

namespace Peach

/-- Does `text` start with `pat`? (List-of-characters version.) -/
def charsStart : List Char → List Char → Bool
  | [], _ => true
  | _ :: _, [] => false
  | a :: as, b :: bs => a == b && charsStart as bs

/-- Does `pat` occur as a contiguous run anywhere in `text`? -/
def charsHas (pat : List Char) : List Char → Bool
  | [] => charsStart pat []
  | t :: ts => charsStart pat (t :: ts) || charsHas pat ts

/-- Python's `str.lower()`: lower-case every character. (Stated via the
character list so that it evaluates by kernel reduction; all strings
this program lower-cases are ASCII, where `Char.toLower` agrees with
Python.) -/
def strLower (s : String) : String :=
  ⟨s.data.map Char.toLower⟩

/-- Case-insensitive substring search: the embedding of
`re.compile(pat, re.I).search(text)` for the literal patterns used by
`FeatureExtractor` (every pattern in `features.py` is a literal string,
so `re.I` search is exactly case-insensitive substring containment). -/
def strHasCI (pat text : String) : Bool :=
  charsHas (strLower pat).toList (strLower text).toList

/-- `FeatureExtractor.USERNAME_PATTERNS` (features.py lines 165–177). -/
def usernamePatterns : List String :=
  ["user", "login", "usr", "uname", "account", "acct", "signin",
   "sign-in", "session", "member", "alias"]

/-- `FeatureExtractor.EMAIL_PATTERNS` (features.py lines 179–183). -/
def emailPatterns : List String := ["email", "e-mail", "mail"]

/-- `FeatureExtractor.PASSWORD_PATTERNS` (features.py lines 185–193). -/
def passwordPatterns : List String :=
  ["pass", "password", "pwd", "secret", "passphrase", "key", "credential"]

/-- `FeatureExtractor.TOTP_PATTERNS` (features.py lines 195–207). -/
def totpPatterns : List String :=
  ["totp", "otp", "2fa", "mfa", "two-factor", "twofactor", "authenticat",
   "verification", "code", "pin", "token"]

/-- The ad-hoc one-element list `[re.compile(r"login", re.I)]` used for
`name_has_login` and `id_has_login` (features.py lines 222, 229). -/
def loginPatterns : List String := ["login"]

/-- Number of patterns in `pats` that match `text` case-insensitively:
the `matches = sum(1 for p in patterns if p.search(text))` of
`FeatureExtractor._match_score`. -/
def matchCount (text : String) (pats : List String) : ℕ :=
  (pats.filter (fun p => strHasCI p text)).length

/-- `FeatureExtractor._match_score` (features.py lines 301–305):
empty text scores `0.0`; otherwise `min(matches / len(patterns) * 3, 1.0)`
(and `0.0` for an empty pattern list). -/
def matchScore (text : String) (pats : List String) : ℚ :=
  if text = "" then 0
  else if pats = [] then 0
  else min ((matchCount text pats : ℚ) / (pats.length : ℚ) * 3) 1

/-- The embedding of the `FieldFeatures` dataclass (features.py lines
13–59): 45 numeric slots, every one defaulting to zero. Python stores
ints in the flag slots and floats in the score slots; all are read as
numbers by `to_vector`, so a single numeric type is used here. -/
structure FieldFeatures where
  type_text : ℚ := 0
  type_email : ℚ := 0
  type_password : ℚ := 0
  type_tel : ℚ := 0
  type_number : ℚ := 0
  type_search : ℚ := 0
  type_url : ℚ := 0
  type_other : ℚ := 0
  auto_username : ℚ := 0
  auto_email : ℚ := 0
  auto_current_password : ℚ := 0
  auto_new_password : ℚ := 0
  auto_one_time_code : ℚ := 0
  auto_off : ℚ := 0
  auto_other : ℚ := 0
  name_has_user : ℚ := 0
  name_has_login : ℚ := 0
  name_has_email : ℚ := 0
  name_has_pass : ℚ := 0
  name_length : ℚ := 0
  id_has_user : ℚ := 0
  id_has_login : ℚ := 0
  id_has_email : ℚ := 0
  id_has_pass : ℚ := 0
  id_length : ℚ := 0
  placeholder_has_user : ℚ := 0
  placeholder_has_email : ℚ := 0
  placeholder_has_pass : ℚ := 0
  placeholder_length : ℚ := 0
  aria_label_has_user : ℚ := 0
  aria_label_has_email : ℚ := 0
  aria_label_has_pass : ℚ := 0
  aria_label_length : ℚ := 0
  parent_is_form : ℚ := 0
  parent_is_div : ℚ := 0
  parent_is_section : ℚ := 0
  sibling_count : ℚ := 0
  has_password_sibling : ℚ := 0
  has_email_sibling : ℚ := 0
  form_has_submit : ℚ := 0
  form_action_has_login : ℚ := 0
  is_required : ℚ := 0
  has_placeholder : ℚ := 0
  has_aria_label : ℚ := 0
  inputmode_numeric : ℚ := 0

/-- `FieldFeatures.to_vector` (features.py lines 61–111): the 45 slots
in their fixed order. -/
def FieldFeatures.toVector (f : FieldFeatures) : List ℚ :=
  [f.type_text, f.type_email, f.type_password, f.type_tel, f.type_number,
   f.type_search, f.type_url, f.type_other,
   f.auto_username, f.auto_email, f.auto_current_password,
   f.auto_new_password, f.auto_one_time_code, f.auto_off, f.auto_other,
   f.name_has_user, f.name_has_login, f.name_has_email, f.name_has_pass,
   f.name_length,
   f.id_has_user, f.id_has_login, f.id_has_email, f.id_has_pass,
   f.id_length,
   f.placeholder_has_user, f.placeholder_has_email, f.placeholder_has_pass,
   f.placeholder_length,
   f.aria_label_has_user, f.aria_label_has_email, f.aria_label_has_pass,
   f.aria_label_length,
   f.parent_is_form, f.parent_is_div, f.parent_is_section,
   f.sibling_count, f.has_password_sibling, f.has_email_sibling,
   f.form_has_submit, f.form_action_has_login,
   f.is_required, f.has_placeholder, f.has_aria_label, f.inputmode_numeric]

/-- `FieldFeatures.feature_names` (features.py lines 113–161). -/
def FieldFeatures.featureNames : List String :=
  ["type_text", "type_email", "type_password", "type_tel", "type_number",
   "type_search", "type_url", "type_other",
   "auto_username", "auto_email", "auto_current_password",
   "auto_new_password", "auto_one_time_code", "auto_off", "auto_other",
   "name_has_user", "name_has_login", "name_has_email", "name_has_pass",
   "name_length",
   "id_has_user", "id_has_login", "id_has_email", "id_has_pass",
   "id_length",
   "placeholder_has_user", "placeholder_has_email", "placeholder_has_pass",
   "placeholder_length",
   "aria_label_has_user", "aria_label_has_email", "aria_label_has_pass",
   "aria_label_length",
   "parent_is_form", "parent_is_div", "parent_is_section",
   "sibling_count", "has_password_sibling", "has_email_sibling",
   "form_has_submit", "form_action_has_login",
   "is_required", "has_placeholder", "has_aria_label", "inputmode_numeric"]

/-- Decoder of a 45-slot vector back into a `FieldFeatures`, reading the
slots in the order fixed by `FieldFeatures.toVector`; any vector of a
different length is rejected. -/
def FieldFeatures.ofVector : List ℚ → Option FieldFeatures
  | a1 :: a2 :: a3 :: a4 :: a5 :: a6 :: a7 :: a8 :: a9 :: a10 :: a11 ::
    a12 :: a13 :: a14 :: a15 :: a16 :: a17 :: a18 :: a19 :: a20 :: a21 ::
    a22 :: a23 :: a24 :: a25 :: a26 :: a27 :: a28 :: a29 :: a30 :: a31 ::
    a32 :: a33 :: a34 :: a35 :: a36 :: a37 :: a38 :: a39 :: a40 :: a41 ::
    a42 :: a43 :: a44 :: a45 :: [] =>
    some ⟨a1, a2, a3, a4, a5, a6, a7, a8, a9, a10, a11, a12, a13, a14,
          a15, a16, a17, a18, a19, a20, a21, a22, a23, a24, a25, a26,
          a27, a28, a29, a30, a31, a32, a33, a34, a35, a36, a37, a38,
          a39, a40, a41, a42, a43, a44, a45⟩
  | _ => none

/-- Case-sensitive substring containment, used for the `in` checks of
`_set_autocomplete` (the attribute value is lower-cased first there). -/
def strHas (pat text : String) : Bool :=
  charsHas pat.toList text.toList

/-- An HTML `<input>` element as BeautifulSoup presents it: its
attribute dictionary. `get` is `Tag.get`: `None` (here `none`) when the
attribute is absent. -/
structure InputElem where
  attrs : List (String × String)
deriving DecidableEq

def InputElem.get (e : InputElem) (k : String) : Option String :=
  e.attrs.lookup k

/-- The part of the parsed document that `_extract_context_features`
reads through `input_elem.find_parent()`: the parent's tag name and its
direct-child `<input>` elements (`parent.find_all("input",
recursive=False)`), a list that always contains the element itself. -/
structure ParentCtx where
  tag : String
  childInputs : List InputElem

/-- The part of the document that the extractor reads through
`input_elem.find_parent("form")`: whether the form contains a
submit-typed button/input, and its `action` attribute (defaulted to
`""`). -/
structure FormCtx where
  hasSubmit : Bool
  action : String

/-- The surrounding-document context of one input element. -/
structure ElemCtx where
  parent : Option ParentCtx
  form : Option FormCtx

/-- `FeatureExtractor._set_input_type` (features.py lines 269–282):
a fixed type→slot table with an `other` fallback. -/
def setInputType (f : FieldFeatures) (t : String) : FieldFeatures :=
  if t = "text" then { f with type_text := 1 }
  else if t = "email" then { f with type_email := 1 }
  else if t = "password" then { f with type_password := 1 }
  else if t = "tel" then { f with type_tel := 1 }
  else if t = "number" then { f with type_number := 1 }
  else if t = "search" then { f with type_search := 1 }
  else if t = "url" then { f with type_url := 1 }
  else { f with type_other := 1 }

/-- `FeatureExtractor._set_autocomplete` (features.py lines 284–299):
lower-case the attribute, then first-match-wins down the chain
username > email > current-password > new-password > one-time-code >
exact "off", else "other". -/
def setAutocomplete (f : FieldFeatures) (autocomplete : String) : FieldFeatures :=
  let a := strLower autocomplete
  if strHas "username" a then { f with auto_username := 1 }
  else if strHas "email" a then { f with auto_email := 1 }
  else if strHas "current-password" a then { f with auto_current_password := 1 }
  else if strHas "new-password" a then { f with auto_new_password := 1 }
  else if strHas "one-time-code" a then { f with auto_one_time_code := 1 }
  else if a = "off" then { f with auto_off := 1 }
  else { f with auto_other := 1 }

/-- The `type` attribute of a sibling, as read in the sibling loop:
`sibling.get("type", "").lower()`. -/
def siblingType (s : InputElem) : String :=
  strLower ((s.get "type").getD "")

/-- `re.search(r"login|signin|auth|session", action, re.I)` of
features.py line 333. -/
def actionAuthMatch (action : String) : Bool :=
  strHasCI "login" action || strHasCI "signin" action ||
  strHasCI "auth" action || strHasCI "session" action

/-- `FeatureExtractor._extract_context_features` (features.py lines
307–334). BeautifulSoup compares tags structurally (`Tag.__eq__` is by
name/attrs/contents), so the `sibling != input_elem` guard is value
inequality on the element. Flags are only ever raised, never reset,
mirroring the Python assignments inside the loop. -/
def extractContext (f : FieldFeatures) (e : InputElem) (ctx : ElemCtx) :
    FieldFeatures :=
  let f :=
    match ctx.parent with
    | none => f
    | some p =>
      let pn := strLower p.tag
      let siblings := p.childInputs
      { f with
        parent_is_form := if pn = "form" then 1 else 0
        parent_is_div := if pn = "div" then 1 else 0
        parent_is_section := if pn = "section" then 1 else 0
        sibling_count := (siblings.length : ℚ) / 10
        has_password_sibling :=
          if siblings.any (fun s => s != e && siblingType s == "password")
          then 1 else f.has_password_sibling
        has_email_sibling :=
          if siblings.any (fun s => s != e && siblingType s == "email")
          then 1 else f.has_email_sibling }
  match ctx.form with
  | none => f
  | some fo =>
    { f with
      form_has_submit := if fo.hasSubmit then 1 else 0
      form_action_has_login := if actionAuthMatch fo.action then 1 else 0 }

/-- `FeatureExtractor.extract_from_element` (features.py lines
209–267). `1 if input_elem.get("required") else 0` uses Python
truthiness: a valueless `required` attribute parses to `""`, which is
falsy, hence the `s = ""` test. -/
def extractFromElement (e : InputElem) (ctx : ElemCtx) : FieldFeatures :=
  let f0 : FieldFeatures := {}
  let inputType := strLower ((e.get "type").getD "text")
  let f1 := setInputType f0 inputType
  let autocomplete := (e.get "autocomplete").getD ""
  let f2 := setAutocomplete f1 autocomplete
  let name := (e.get "name").getD ""
  let f3 := { f2 with
    name_has_user := matchScore name usernamePatterns
    name_has_login := matchScore name loginPatterns
    name_has_email := matchScore name emailPatterns
    name_has_pass := matchScore name passwordPatterns
    name_length := (name.length : ℚ) / 50 }
  let elemId := (e.get "id").getD ""
  let f4 := { f3 with
    id_has_user := matchScore elemId usernamePatterns
    id_has_login := matchScore elemId loginPatterns
    id_has_email := matchScore elemId emailPatterns
    id_has_pass := matchScore elemId passwordPatterns
    id_length := (elemId.length : ℚ) / 50 }
  let placeholder := (e.get "placeholder").getD ""
  let f5 := { f4 with
    placeholder_has_user := matchScore placeholder usernamePatterns
    placeholder_has_email := matchScore placeholder emailPatterns
    placeholder_has_pass := matchScore placeholder passwordPatterns
    placeholder_length := (placeholder.length : ℚ) / 100 }
  let ariaLabel := (e.get "aria-label").getD ""
  let f6 := { f5 with
    aria_label_has_user := matchScore ariaLabel usernamePatterns
    aria_label_has_email := matchScore ariaLabel emailPatterns
    aria_label_has_pass := matchScore ariaLabel passwordPatterns
    aria_label_length := (ariaLabel.length : ℚ) / 100 }
  let f7 := extractContext f6 e ctx
  { f7 with
    is_required :=
      match e.get "required" with
      | some s => if s = "" then 0 else 1
      | none => 0
    has_placeholder := if placeholder = "" then 0 else 1
    has_aria_label := if ariaLabel = "" then 0 else 1
    inputmode_numeric := if e.get "inputmode" = some "numeric" then 1 else 0 }

/-- The effective `type` of an input element, as computed in both
`extract_from_element` and `extract_features_from_html`:
`input_elem.get("type", "text").lower()`. -/
def inputTypeOf (e : InputElem) : String :=
  strLower ((e.get "type").getD "text")

/-- The structural-control types skipped by `extract_features_from_html`
(features.py line 344). -/
def excludedTypes : List String :=
  ["hidden", "submit", "button", "image", "reset"]

/-- One element of the result list of `extract_features_from_html`
(features.py lines 349–356). -/
structure FieldRecord where
  features : FieldFeatures
  element_id : String
  element_name : String
  input_type : String

def mkFieldRecord (e : InputElem) (ctx : ElemCtx) : FieldRecord :=
  { features := extractFromElement e ctx
    element_id := (e.get "id").getD ""
    element_name := (e.get "name").getD ""
    input_type := inputTypeOf e }

/-- `extract_features_from_html` (features.py lines 337–358), applied
to the parsed document: the list of all `<input>` elements in document
order, each with its surrounding context (the HTML parse itself is
BeautifulSoup and external to this package). Elements of an excluded
type are skipped with `continue`. -/
def extractFeaturesFromDoc : List (InputElem × ElemCtx) → List FieldRecord
  | [] => []
  | (e, ctx) :: rest =>
    if excludedTypes.contains (inputTypeOf e) then
      extractFeaturesFromDoc rest
    else
      mkFieldRecord e ctx :: extractFeaturesFromDoc rest

/-- A Python `FieldFeatures` *instance*: its 45 data fields plus its
instance dictionary's possible shadowing of the `to_vector` method.
`augment_dataset`'s `dir()` copy loop installs the base instance's bound
`to_vector` into the fresh instance's dictionary; the base instance is
never mutated afterwards, so the bound method is modelled by the vector
it will return (`vecOverride`). -/
structure PyFeatures where
  fields : FieldFeatures
  vecOverride : Option (List ℚ) := none

/-- Calling `.to_vector()` on an instance: the instance dictionary
shadows the class method when the copy loop has written to it. -/
def PyFeatures.callToVector (p : PyFeatures) : List ℚ :=
  p.vecOverride.getD p.fields.toVector

/-- The `TrainingSample` dataclass (dataset.py lines 13–19). -/
structure TrainingSample where
  features : PyFeatures
  label : String
  source : String
  element_id : String := ""
  element_name : String := ""

/-- One catalog entry of `TEST_SITES` (dataset.py lines 22–242), with
its HTML already parsed into the element/context list. -/
structure SiteEntry where
  name : String
  doc : List (InputElem × ElemCtx)
  labels : List (String × String)

/-- One entry of `NEGATIVE_EXAMPLES` (dataset.py lines 244–296). -/
structure NegEntry where
  name : String
  doc : List (InputElem × ElemCtx)

/-- The per-site loop body of `build_dataset` (dataset.py lines
302–318): one `TrainingSample` per extracted record, labelled by looking
the record's `element_name` up in the entry's label map, defaulting to
`"none"`. -/
def siteSamples (site : SiteEntry) : List TrainingSample :=
  (extractFeaturesFromDoc site.doc).map fun r =>
    { features := { fields := r.features }
      label := (site.labels.lookup r.element_name).getD "none"
      source := site.name
      element_id := r.element_id
      element_name := r.element_name }

/-- The negative-examples loop of `build_dataset` (dataset.py lines
320–331): every extracted record is labelled `"none"`. -/
def negSamples (ex : NegEntry) : List TrainingSample :=
  (extractFeaturesFromDoc ex.doc).map fun r =>
    { features := { fields := r.features }
      label := "none"
      source := ex.name
      element_id := r.element_id
      element_name := r.element_name }

/-- `build_dataset` (dataset.py lines 299–333). -/
def buildDataset (sites : List SiteEntry) (negs : List NegEntry) :
    List TrainingSample :=
  (sites.map siteSamples).flatten ++ (negs.map negSamples).flatten

/-- The random draws consumed by one iteration of the augmentation
loop: the `random.choice` pick, the two `random.random()` draws, and
the two `random.uniform(0.3, 0.8)` draws. -/
structure AugRand where
  pick : ℕ
  r1 : ℚ
  r2 : ℚ
  u1 : ℚ
  u2 : ℚ

/-- The `dir()` attribute-copy loop of `augment_dataset` (dataset.py
lines 361–364): `dir(base.features)` lists the 45 data fields *and* the
non-underscore methods `to_vector` and `feature_names`; each is copied
onto the fresh instance, so the fresh instance's dictionary ends up
holding the base instance's bound `to_vector` (the copied bound
`feature_names` classmethod behaves identically to the class's and
needs no separate model). -/
def copyFeatureAttrs (base : PyFeatures) : PyFeatures :=
  { fields := base.fields, vecOverride := some base.callToVector }

/-- The 30%-probability perturbation (dataset.py lines 366–370): it
zeroes `auto_username`, `auto_email` and `auto_current_password` and
sets `auto_other` to 1. -/
def perturbAuto (f : FieldFeatures) : FieldFeatures :=
  { f with auto_username := 0, auto_email := 0,
           auto_current_password := 0, auto_other := 1 }

/-- The synthesized feature instance of one augmentation iteration
(dataset.py lines 361–374). -/
def synthFeatures (base : TrainingSample) (r : AugRand) : PyFeatures :=
  let nf := copyFeatureAttrs base.features
  let nf := if r.r1 < 3/10 then { nf with fields := perturbAuto nf.fields }
            else nf
  if r.r2 < 1/5 ∧ base.label = "username" then
    { nf with fields := { nf.fields with
        name_has_user := r.u1, name_has_login := r.u2 } }
  else nf

/-- The `TrainingSample` appended by one augmentation iteration
(dataset.py lines 376–384). -/
def synthSample (base : TrainingSample) (r : AugRand) : TrainingSample :=
  { features := synthFeatures base r
    label := base.label
    source := base.source ++ "_augmented"
    element_id := base.element_id
    element_name := base.element_name }

/-- Outcome of the augmentation loop under a fuel bound: normal return,
the `IndexError` that `random.choice` raises on an empty sequence, or
fuel exhaustion (the loop has run that many iterations without
returning). -/
inductive AugResult where
  | ok (samples : List TrainingSample)
  | err
  | outOfFuel

/-- The `while len(augmented) < target_size` loop of `augment_dataset`
(dataset.py lines 355–384), with an explicit stream `rnd` of random
draws indexed by iteration count `t`, and fuel counting loop
iterations. A base sample labelled `"none"` is rejected (`continue`). -/
def augmentLoop (samples : List TrainingSample) (target : ℕ)
    (rnd : ℕ → AugRand) : ℕ → ℕ → List TrainingSample → AugResult
  | 0, _, _ => .outOfFuel
  | fuel + 1, t, acc =>
    if target ≤ acc.length then .ok acc
    else
      match samples.get? ((rnd t).pick % samples.length) with
      | none => .err
      | some base =>
        if base.label = "none" then
          augmentLoop samples target rnd fuel (t + 1) acc
        else
          augmentLoop samples target rnd fuel (t + 1)
            (acc ++ [synthSample base (rnd t)])

/-- `augment_dataset` (dataset.py lines 336–386): start from a copy of
the base corpus and loop. -/
def augmentDataset (samples : List TrainingSample) (target : ℕ)
    (rnd : ℕ → AugRand) (fuel : ℕ) : AugResult :=
  augmentLoop samples target rnd fuel 0 samples

/-- One serialized record of `save_dataset` (dataset.py lines
389–402). -/
structure SavedRow where
  features : List ℚ
  label : String
  source : String
  element_id : String
  element_name : String

/-- `save_dataset`'s row construction (dataset.py lines 390–399): each
row's feature vector is `sample.features.to_vector()` — a call through
the instance, hence through any instance-dictionary shadowing. -/
def saveDataset (samples : List TrainingSample) : List SavedRow :=
  samples.map fun s =>
    { features := s.features.callToVector
      label := s.label
      source := s.source
      element_id := s.element_id
      element_name := s.element_name }

/-! ## Helper lemmas -/

theorem ofVector_toVector (f : FieldFeatures) :
    FieldFeatures.ofVector f.toVector = some f := by
  cases f; rfl

theorem matchScore_nonneg (t : String) (pats : List String) :
    0 ≤ matchScore t pats := by
  unfold matchScore
  split
  · exact le_refl 0
  · split
    · exact le_refl 0
    · exact le_min (by positivity) zero_le_one

theorem matchScore_le_one (t : String) (pats : List String) :
    matchScore t pats ≤ 1 := by
  unfold matchScore
  split
  · exact zero_le_one
  · split
    · exact zero_le_one
    · exact min_le_right _ _

/-- The 8 input-type flags of a `FieldFeatures`, in slot order. -/
def typeFlags (f : FieldFeatures) : List ℚ :=
  [f.type_text, f.type_email, f.type_password, f.type_tel, f.type_number,
   f.type_search, f.type_url, f.type_other]

/-- The 7 autocomplete flags of a `FieldFeatures`, in slot order. -/
def autoFlags (f : FieldFeatures) : List ℚ :=
  [f.auto_username, f.auto_email, f.auto_current_password,
   f.auto_new_password, f.auto_one_time_code, f.auto_off, f.auto_other]

/-- Exactly one entry of the list is 1, and every entry is 0 or 1. -/
def oneHot (l : List ℚ) : Prop :=
  l.count 1 = 1 ∧ ∀ x ∈ l, x = 0 ∨ x = 1

instance (l : List ℚ) : Decidable (oneHot l) := by
  unfold oneHot; infer_instance

theorem oneHot_typeFlags_setInputType (t : String) :
    oneHot (typeFlags (setInputType {} t)) := by
  unfold setInputType
  split_ifs <;> decide

theorem autoFlags_setInputType (f : FieldFeatures) (t : String) :
    autoFlags (setInputType f t) = autoFlags f := by
  unfold setInputType
  split_ifs <;> rfl

theorem oneHot_autoFlags_setAutocomplete (f : FieldFeatures) (a : String)
    (h : autoFlags f = [0, 0, 0, 0, 0, 0, 0]) :
    oneHot (autoFlags (setAutocomplete f a)) := by
  simp only [autoFlags, List.cons.injEq, and_true] at h
  obtain ⟨h1, h2, h3, h4, h5, h6, h7⟩ := h
  simp only [setAutocomplete]
  split_ifs <;> · simp only [autoFlags, h1, h2, h3, h4, h5, h6, h7]; decide

theorem setAutocomplete_type_text (f : FieldFeatures) (a : String) :
    (setAutocomplete f a).type_text = f.type_text := by
  simp only [setAutocomplete]
  split_ifs <;> rfl

theorem setAutocomplete_type_email (f : FieldFeatures) (a : String) :
    (setAutocomplete f a).type_email = f.type_email := by
  simp only [setAutocomplete]
  split_ifs <;> rfl

theorem setAutocomplete_type_password (f : FieldFeatures) (a : String) :
    (setAutocomplete f a).type_password = f.type_password := by
  simp only [setAutocomplete]
  split_ifs <;> rfl

theorem setAutocomplete_type_tel (f : FieldFeatures) (a : String) :
    (setAutocomplete f a).type_tel = f.type_tel := by
  simp only [setAutocomplete]
  split_ifs <;> rfl

theorem setAutocomplete_type_number (f : FieldFeatures) (a : String) :
    (setAutocomplete f a).type_number = f.type_number := by
  simp only [setAutocomplete]
  split_ifs <;> rfl

theorem setAutocomplete_type_search (f : FieldFeatures) (a : String) :
    (setAutocomplete f a).type_search = f.type_search := by
  simp only [setAutocomplete]
  split_ifs <;> rfl

theorem setAutocomplete_type_url (f : FieldFeatures) (a : String) :
    (setAutocomplete f a).type_url = f.type_url := by
  simp only [setAutocomplete]
  split_ifs <;> rfl

theorem setAutocomplete_type_other (f : FieldFeatures) (a : String) :
    (setAutocomplete f a).type_other = f.type_other := by
  simp only [setAutocomplete]
  split_ifs <;> rfl

theorem setInputType_auto_username (f : FieldFeatures) (t : String) :
    (setInputType f t).auto_username = f.auto_username := by
  unfold setInputType
  split_ifs <;> rfl

theorem setInputType_auto_email (f : FieldFeatures) (t : String) :
    (setInputType f t).auto_email = f.auto_email := by
  unfold setInputType
  split_ifs <;> rfl

theorem setInputType_auto_current_password (f : FieldFeatures) (t : String) :
    (setInputType f t).auto_current_password = f.auto_current_password := by
  unfold setInputType
  split_ifs <;> rfl

theorem setInputType_auto_new_password (f : FieldFeatures) (t : String) :
    (setInputType f t).auto_new_password = f.auto_new_password := by
  unfold setInputType
  split_ifs <;> rfl

theorem setInputType_auto_one_time_code (f : FieldFeatures) (t : String) :
    (setInputType f t).auto_one_time_code = f.auto_one_time_code := by
  unfold setInputType
  split_ifs <;> rfl

theorem setInputType_auto_off (f : FieldFeatures) (t : String) :
    (setInputType f t).auto_off = f.auto_off := by
  unfold setInputType
  split_ifs <;> rfl

theorem setInputType_auto_other (f : FieldFeatures) (t : String) :
    (setInputType f t).auto_other = f.auto_other := by
  unfold setInputType
  split_ifs <;> rfl

theorem typeFlags_extract (e : InputElem) (ctx : ElemCtx) :
    typeFlags (extractFromElement e ctx) =
      typeFlags (setInputType {} (strLower ((e.get "type").getD "text"))) := by
  obtain ⟨p, fo⟩ := ctx
  cases p <;> cases fo <;>
    simp only [extractFromElement, extractContext, typeFlags,
      setAutocomplete_type_text, setAutocomplete_type_email, setAutocomplete_type_password, setAutocomplete_type_tel, setAutocomplete_type_number, setAutocomplete_type_search, setAutocomplete_type_url, setAutocomplete_type_other]

theorem autoFlags_extract (e : InputElem) (ctx : ElemCtx) :
    autoFlags (extractFromElement e ctx) =
      autoFlags (setAutocomplete
        (setInputType {} (strLower ((e.get "type").getD "text")))
        ((e.get "autocomplete").getD "")) := by
  obtain ⟨p, fo⟩ := ctx
  cases p <;> cases fo <;>
    simp only [extractFromElement, extractContext, autoFlags]

theorem typeFlags_synth (base : TrainingSample) (r : AugRand) :
    typeFlags (synthFeatures base r).fields =
      typeFlags base.features.fields := by
  simp only [synthFeatures, copyFeatureAttrs, perturbAuto]
  split_ifs <;> rfl

theorem autoFlags_synth_fire (base : TrainingSample) (r : AugRand)
    (h : r.r1 < 3 / 10) :
    autoFlags (synthFeatures base r).fields =
      [0, 0, 0, base.features.fields.auto_new_password,
       base.features.fields.auto_one_time_code,
       base.features.fields.auto_off, 1] := by
  simp only [synthFeatures, copyFeatureAttrs, perturbAuto]
  split_ifs with h1 h2 h2 <;> first | rfl | exact absurd h h1

theorem autoFlags_synth_nofire (base : TrainingSample) (r : AugRand)
    (h : ¬ r.r1 < 3 / 10) :
    autoFlags (synthFeatures base r).fields =
      autoFlags base.features.fields := by
  simp only [synthFeatures, copyFeatureAttrs, perturbAuto]
  split_ifs with h1 h2 h2 <;> first | rfl | exact absurd h1 h

/-! ## Claim theorems -/

/-- C1: `to_vector` returns exactly 45 values in the fixed slot order of
`feature_names`; slot-by-slot equal field values give equal vectors, and
the vector determines every field value, so features → vector → features
round-trips losslessly when slot order is preserved. -/
theorem toVector_length_order_roundtrip :
    (∀ f : FieldFeatures, f.toVector.length = 45) ∧
    FieldFeatures.featureNames.length = 45 ∧
    (∀ f g : FieldFeatures, f = g → f.toVector = g.toVector) ∧
    (∀ f : FieldFeatures, FieldFeatures.ofVector f.toVector = some f) ∧
    (∀ f g : FieldFeatures, f.toVector = g.toVector → f = g) := by
  refine ⟨fun f => rfl, rfl, fun f g h => by rw [h], ofVector_toVector,
    fun f g h => ?_⟩
  have hf := ofVector_toVector f
  rw [h, ofVector_toVector g] at hf
  exact (Option.some.injEq _ _ ▸ hf).symm

/-- C1 witness: the round trip and congruence at a concrete instance. -/
theorem toVector_length_order_roundtrip_witness :
    FieldFeatures.ofVector (FieldFeatures.toVector {}) = some {} ∧
    ({ type_text := 1 : FieldFeatures} = { type_text := 1 : FieldFeatures}) :=
  ⟨toVector_length_order_roundtrip.2.2.2.1 {},
   toVector_length_order_roundtrip.2.2.2.2 { type_text := 1 }
     { type_text := 1 } rfl⟩

/-- C2: for a non-empty pattern category, the score of empty text is 0,
the score of non-empty text is `min(matchCount / patternCount * 3, 1)`,
and the score always lies in `[0, 1]`. -/
theorem matchScore_empty_formula_bounded (text : String)
    (pats : List String) (hp : pats ≠ []) :
    matchScore "" pats = 0 ∧
    (text ≠ "" →
      matchScore text pats =
        min ((matchCount text pats : ℚ) / (pats.length : ℚ) * 3) 1) ∧
    0 ≤ matchScore text pats ∧ matchScore text pats ≤ 1 := by
  refine ⟨by simp [matchScore], fun ht => by simp [matchScore, ht, hp],
    matchScore_nonneg text pats, matchScore_le_one text pats⟩

/-- C2 witness: the score of "user" against the username category. -/
theorem matchScore_empty_formula_bounded_witness :
    matchScore "" usernamePatterns = 0 ∧
    0 ≤ matchScore "user" usernamePatterns ∧
    matchScore "user" usernamePatterns ≤ 1 := by
  obtain ⟨h1, _, h3, h4⟩ :=
    matchScore_empty_formula_bounded "user" usernamePatterns (by decide)
  exact ⟨h1, h3, h4⟩

/-- C3: the autocomplete attribute is classified by first matching
substring in the priority order username > email > current-password >
new-password > one-time-code > exact "off" > other; in particular a
value containing both "username" and "email" yields `auto_username = 1`
and `auto_email = 0`. -/
theorem setAutocomplete_first_match_priority (v : String) :
    (strHas "username" (strLower v) = true →
      setAutocomplete {} v = { auto_username := 1 }) ∧
    (strHas "username" (strLower v) = false →
      strHas "email" (strLower v) = true →
      setAutocomplete {} v = { auto_email := 1 }) ∧
    (strHas "username" (strLower v) = false →
      strHas "email" (strLower v) = false →
      strHas "current-password" (strLower v) = true →
      setAutocomplete {} v = { auto_current_password := 1 }) ∧
    (strHas "username" (strLower v) = false →
      strHas "email" (strLower v) = false →
      strHas "current-password" (strLower v) = false →
      strHas "new-password" (strLower v) = true →
      setAutocomplete {} v = { auto_new_password := 1 }) ∧
    (strHas "username" (strLower v) = false →
      strHas "email" (strLower v) = false →
      strHas "current-password" (strLower v) = false →
      strHas "new-password" (strLower v) = false →
      strHas "one-time-code" (strLower v) = true →
      setAutocomplete {} v = { auto_one_time_code := 1 }) ∧
    (strHas "username" (strLower v) = false →
      strHas "email" (strLower v) = false →
      strHas "current-password" (strLower v) = false →
      strHas "new-password" (strLower v) = false →
      strHas "one-time-code" (strLower v) = false →
      (strLower v) = "off" →
      setAutocomplete {} v = { auto_off := 1 }) ∧
    (strHas "username" (strLower v) = false →
      strHas "email" (strLower v) = false →
      strHas "current-password" (strLower v) = false →
      strHas "new-password" (strLower v) = false →
      strHas "one-time-code" (strLower v) = false →
      (strLower v) ≠ "off" →
      setAutocomplete {} v = { auto_other := 1 }) ∧
    (strHas "username" (strLower v) = true →
      (setAutocomplete {} v).auto_username = 1 ∧
      (setAutocomplete {} v).auto_email = 0) := by
  refine ⟨fun h1 => by simp [setAutocomplete, h1],
    fun h1 h2 => by simp [setAutocomplete, h1, h2],
    fun h1 h2 h3 => by simp [setAutocomplete, h1, h2, h3],
    fun h1 h2 h3 h4 => by simp [setAutocomplete, h1, h2, h3, h4],
    fun h1 h2 h3 h4 h5 => by simp [setAutocomplete, h1, h2, h3, h4, h5],
    fun h1 h2 h3 h4 h5 h6 => by
      simp [setAutocomplete, h1, h2, h3, h4, h5]
      exact h6,
    fun h1 h2 h3 h4 h5 h6 => by
      simp [setAutocomplete, h1, h2, h3, h4, h5]
      exact h6,
    fun h1 => by simp [setAutocomplete, h1]⟩

/-- C3 witness: `autocomplete="username email"` classifies as username,
not email. -/
theorem setAutocomplete_first_match_priority_witness :
    (setAutocomplete {} "username email").auto_username = 1 ∧
    (setAutocomplete {} "username email").auto_email = 0 :=
  (setAutocomplete_first_match_priority "username email").2.2.2.2.2.2.2
    (by decide)

/-- Concrete augmentation base for C4: a one-hot TOTP-style sample, as
the "2FA/TOTP Form" catalog entry produces (`type_tel = 1`,
`auto_one_time_code = 1`, label "totp"). -/
def c4Base : TrainingSample :=
  { features := { fields := { type_tel := 1, auto_one_time_code := 1 } }
    label := "totp", source := "2FA/TOTP Form" }

/-- Concrete random draws for C4: `r1 = 0 < 0.3` fires the autocomplete
perturbation, `r2 = 1` skips the name-score perturbation. -/
def c4Rand : AugRand := ⟨0, 0, 1, 1 / 2, 1 / 2⟩

/-- C4 counterexample: a base sample whose autocomplete flags are
one-hot, yet the augmentation stage synthesizes features whose
autocomplete flags are not one-hot (both `auto_one_time_code` and
`auto_other` end up 1). -/
theorem augment_breaks_auto_oneHot :
    oneHot (autoFlags c4Base.features.fields) ∧
    ¬ oneHot (autoFlags (synthFeatures c4Base c4Rand).fields) := by
  constructor
  · decide
  · rw [autoFlags_synth_fire c4Base c4Rand (by norm_num [c4Rand])]
    decide

/-- C4 (amended): every extractor-produced `FieldFeatures` is one-hot in
both the 8 type flags and the 7 autocomplete flags; a synthesized
`FieldFeatures` keeps its base's type flags, and its autocomplete flags
are one-hot exactly when the 30% perturbation did not fire on a base
whose set autocomplete flag is new-password, one-time-code or off. -/
theorem oneHot_flags_amended :
    (∀ (e : InputElem) (ctx : ElemCtx),
      oneHot (typeFlags (extractFromElement e ctx)) ∧
      oneHot (autoFlags (extractFromElement e ctx))) ∧
    (∀ (base : TrainingSample) (r : AugRand),
      oneHot (autoFlags base.features.fields) →
      typeFlags (synthFeatures base r).fields =
        typeFlags base.features.fields ∧
      (oneHot (autoFlags (synthFeatures base r).fields) ↔
        ¬(r.r1 < 3 / 10 ∧
          (base.features.fields.auto_new_password = 1 ∨
           base.features.fields.auto_one_time_code = 1 ∨
           base.features.fields.auto_off = 1)))) := by
  refine ⟨fun e ctx => ⟨?_, ?_⟩, fun base r h => ⟨typeFlags_synth base r, ?_⟩⟩
  · rw [typeFlags_extract]
    exact oneHot_typeFlags_setInputType _
  · rw [autoFlags_extract]
    apply oneHot_autoFlags_setAutocomplete
    rw [autoFlags_setInputType]
    rfl
  · by_cases hr : r.r1 < 3 / 10
    · rw [autoFlags_synth_fire base r hr]
      have h4 := h.2 base.features.fields.auto_new_password (by simp [autoFlags])
      have h5 := h.2 base.features.fields.auto_one_time_code (by simp [autoFlags])
      have h6 := h.2 base.features.fields.auto_off (by simp [autoFlags])
      rcases h4 with h4 | h4 <;> rcases h5 with h5 | h5 <;>
        rcases h6 with h6 | h6 <;> rw [h4, h5, h6] <;> simp [hr] <;> decide
    · rw [autoFlags_synth_nofire base r hr]
      simp [hr]
      exact h

/-- C4 witness: the amended statement at a concrete element and at the
concrete TOTP-style base sample. -/
theorem oneHot_flags_amended_witness :
    oneHot (typeFlags (extractFromElement ⟨[]⟩ ⟨none, none⟩)) ∧
    typeFlags (synthFeatures c4Base c4Rand).fields =
      typeFlags c4Base.features.fields :=
  ⟨(oneHot_flags_amended.1 ⟨[]⟩ ⟨none, none⟩).1,
   (oneHot_flags_amended.2 c4Base c4Rand (by decide)).1⟩

/-- Concrete augmentation base for C5: a sample with
`auto_one_time_code = 1`. -/
def c5Base : TrainingSample :=
  { features := { fields := { auto_one_time_code := 1 } }
    label := "totp", source := "2FA/TOTP Form" }

/-- Concrete random draws for C5: the 30% perturbation fires. -/
def c5Rand : AugRand := ⟨0, 0, 1, 1 / 2, 1 / 2⟩

/-- C5 counterexample: the 30% perturbation fires, yet the synthesized
features do not have every autocomplete-category flag zeroed
(`auto_one_time_code` survives as 1). -/
theorem perturb_leaves_one_time_code :
    c5Rand.r1 < 3 / 10 ∧
    ¬ ((synthFeatures c5Base c5Rand).fields.auto_username = 0 ∧
       (synthFeatures c5Base c5Rand).fields.auto_email = 0 ∧
       (synthFeatures c5Base c5Rand).fields.auto_current_password = 0 ∧
       (synthFeatures c5Base c5Rand).fields.auto_new_password = 0 ∧
       (synthFeatures c5Base c5Rand).fields.auto_one_time_code = 0 ∧
       (synthFeatures c5Base c5Rand).fields.auto_off = 0) := by
  constructor
  · norm_num [c5Rand]
  · have hl := autoFlags_synth_fire c5Base c5Rand (by norm_num [c5Rand])
    simp only [autoFlags, List.cons.injEq, and_true] at hl
    rintro ⟨-, -, -, -, h5, -⟩
    rw [hl.2.2.2.2.1] at h5
    norm_num [c5Base] at h5

/-- C5 (amended): when the 30% perturbation fires it zeroes exactly
`auto_username`, `auto_email` and `auto_current_password`, forces
`auto_other` to 1, and leaves `auto_new_password`, `auto_one_time_code`
and `auto_off` at the base's values. -/
theorem perturb_exact_effect (base : TrainingSample) (r : AugRand)
    (h : r.r1 < 3 / 10) :
    (synthFeatures base r).fields.auto_username = 0 ∧
    (synthFeatures base r).fields.auto_email = 0 ∧
    (synthFeatures base r).fields.auto_current_password = 0 ∧
    (synthFeatures base r).fields.auto_other = 1 ∧
    (synthFeatures base r).fields.auto_new_password =
      base.features.fields.auto_new_password ∧
    (synthFeatures base r).fields.auto_one_time_code =
      base.features.fields.auto_one_time_code ∧
    (synthFeatures base r).fields.auto_off =
      base.features.fields.auto_off := by
  have hl := autoFlags_synth_fire base r h
  simp only [autoFlags, List.cons.injEq, and_true] at hl
  obtain ⟨e1, e2, e3, e4, e5, e6, e7⟩ := hl
  exact ⟨e1, e2, e3, e7, e4, e5, e6⟩

/-- C5 witness: the amended statement at the concrete base and draws. -/
theorem perturb_exact_effect_witness :
    (synthFeatures c5Base c5Rand).fields.auto_other = 1 ∧
    (synthFeatures c5Base c5Rand).fields.auto_one_time_code =
      c5Base.features.fields.auto_one_time_code := by
  obtain ⟨-, -, -, h4, -, h6, -⟩ :=
    perturb_exact_effect c5Base c5Rand (by norm_num [c5Rand])
  exact ⟨h4, h6⟩

theorem setInputType_has_password_sibling (f : FieldFeatures) (t : String) :
    (setInputType f t).has_password_sibling = f.has_password_sibling := by
  unfold setInputType
  split_ifs <;> rfl

theorem setAutocomplete_has_password_sibling (f : FieldFeatures) (a : String) :
    (setAutocomplete f a).has_password_sibling = f.has_password_sibling := by
  simp only [setAutocomplete]
  split_ifs <;> rfl

theorem setInputType_has_email_sibling (f : FieldFeatures) (t : String) :
    (setInputType f t).has_email_sibling = f.has_email_sibling := by
  unfold setInputType
  split_ifs <;> rfl

theorem setAutocomplete_has_email_sibling (f : FieldFeatures) (a : String) :
    (setAutocomplete f a).has_email_sibling = f.has_email_sibling := by
  simp only [setAutocomplete]
  split_ifs <;> rfl

/-- Concrete all-negative corpus element for C6: one sample labelled
"none", as the negative examples produce. -/
def c6Sample : TrainingSample :=
  { features := { fields := {} }, label := "none", source := "Search Form" }

/-- C6: on a non-empty base corpus containing only "none"-labelled
samples, with a target size above the corpus size, the augmentation loop
never returns and never raises, for every fuel bound and every stream of
random draws — it rejects forever instead of reporting the precondition
violation. -/
theorem augment_allNone_loops_forever (fuel : ℕ) (rnd : ℕ → AugRand) :
    augmentDataset [c6Sample] 2 rnd fuel = .outOfFuel := by
  have key : ∀ fu t, augmentLoop [c6Sample] 2 rnd fu t [c6Sample] =
      .outOfFuel := by
    intro fu
    induction fu with
    | zero => intro t; rfl
    | succ n ih =>
      intro t
      rw [augmentLoop, if_neg (by norm_num : ¬ (2 ≤ [c6Sample].length)),
        List.length_singleton, Nat.mod_one]
      exact ih (t + 1)
  exact key fuel 0

/-- Concrete element and context for C7: the element is its parent's
only direct-child input. -/
def c7Elem : InputElem := ⟨[("type", "text"), ("name", "q")]⟩

def c7Ctx : ElemCtx := ⟨some ⟨"form", [c7Elem]⟩, none⟩

/-- C7 counterexample: for an element with no other input siblings the
extractor records `sibling_count = 1/10`, not the claimed
`0/10 = 0` — `parent.find_all("input", recursive=False)` includes the
element itself. -/
theorem siblingCount_counts_self :
    (extractFromElement c7Elem c7Ctx).sibling_count = 1 / 10 ∧
    (1 / 10 : ℚ) ≠ 0 := by
  constructor
  · simp [extractFromElement, extractContext, c7Ctx]
  · norm_num

/-- C7 (amended): when the element has a parent, `sibling_count` is the
number of the parent's direct-child input elements *including* this one,
divided by 10; `has_password_sibling` (resp. `has_email_sibling`) is 1
exactly when some direct-child input that differs from this element as a
value (BeautifulSoup compares tags structurally) has type password
(resp. email). -/
theorem context_features_amended (e : InputElem) (ctx : ElemCtx)
    (p : ParentCtx) (hp : ctx.parent = some p) :
    (extractFromElement e ctx).sibling_count =
      (p.childInputs.length : ℚ) / 10 ∧
    ((extractFromElement e ctx).has_password_sibling = 1 ↔
      ∃ s ∈ p.childInputs, s ≠ e ∧ siblingType s = "password") ∧
    ((extractFromElement e ctx).has_email_sibling = 1 ↔
      ∃ s ∈ p.childInputs, s ≠ e ∧ siblingType s = "email") := by
  obtain ⟨pp, fo⟩ := ctx
  dsimp only at hp
  subst hp
  have hpw : (p.childInputs.any
      fun s => s != e && siblingType s == "password") = true ↔
      ∃ s ∈ p.childInputs, s ≠ e ∧ siblingType s = "password" := by
    simp [List.any_eq_true, Bool.and_eq_true, bne_iff_ne, beq_iff_eq]
  have hem : (p.childInputs.any
      fun s => s != e && siblingType s == "email") = true ↔
      ∃ s ∈ p.childInputs, s ≠ e ∧ siblingType s = "email" := by
    simp [List.any_eq_true, Bool.and_eq_true, bne_iff_ne, beq_iff_eq]
  refine ⟨?_, ?_, ?_⟩
  · cases fo <;>
      simp only [extractFromElement, extractContext]
  · cases fo <;>
    · simp only [extractFromElement, extractContext,
        setInputType_has_password_sibling,
        setAutocomplete_has_password_sibling]
      rw [← hpw]
      cases h : p.childInputs.any
          fun s => s != e && siblingType s == "password" <;>
        simp [h]
  · cases fo <;>
    · simp only [extractFromElement, extractContext,
        setInputType_has_email_sibling, setAutocomplete_has_email_sibling]
      rw [← hem]
      cases h : p.childInputs.any
          fun s => s != e && siblingType s == "email" <;>
        simp [h]

/-- C7 witness: the amended statement at the concrete single-child
context. -/
theorem context_features_amended_witness :
    (extractFromElement c7Elem c7Ctx).sibling_count = (1 : ℚ) / 10 := by
  have h := context_features_amended c7Elem c7Ctx ⟨"form", [c7Elem]⟩ rfl
  simpa using h.1

theorem extractContext_name_has_user (f : FieldFeatures) (e : InputElem)
    (ctx : ElemCtx) : (extractContext f e ctx).name_has_user = f.name_has_user := by
  obtain ⟨p, fo⟩ := ctx
  cases p <;> cases fo <;> rfl

theorem extractContext_name_has_login (f : FieldFeatures) (e : InputElem)
    (ctx : ElemCtx) : (extractContext f e ctx).name_has_login = f.name_has_login := by
  obtain ⟨p, fo⟩ := ctx
  cases p <;> cases fo <;> rfl

theorem extractContext_name_has_email (f : FieldFeatures) (e : InputElem)
    (ctx : ElemCtx) : (extractContext f e ctx).name_has_email = f.name_has_email := by
  obtain ⟨p, fo⟩ := ctx
  cases p <;> cases fo <;> rfl

theorem extractContext_name_has_pass (f : FieldFeatures) (e : InputElem)
    (ctx : ElemCtx) : (extractContext f e ctx).name_has_pass = f.name_has_pass := by
  obtain ⟨p, fo⟩ := ctx
  cases p <;> cases fo <;> rfl

theorem extractContext_id_has_user (f : FieldFeatures) (e : InputElem)
    (ctx : ElemCtx) : (extractContext f e ctx).id_has_user = f.id_has_user := by
  obtain ⟨p, fo⟩ := ctx
  cases p <;> cases fo <;> rfl

theorem extractContext_id_has_login (f : FieldFeatures) (e : InputElem)
    (ctx : ElemCtx) : (extractContext f e ctx).id_has_login = f.id_has_login := by
  obtain ⟨p, fo⟩ := ctx
  cases p <;> cases fo <;> rfl

theorem extractContext_id_has_email (f : FieldFeatures) (e : InputElem)
    (ctx : ElemCtx) : (extractContext f e ctx).id_has_email = f.id_has_email := by
  obtain ⟨p, fo⟩ := ctx
  cases p <;> cases fo <;> rfl

theorem extractContext_id_has_pass (f : FieldFeatures) (e : InputElem)
    (ctx : ElemCtx) : (extractContext f e ctx).id_has_pass = f.id_has_pass := by
  obtain ⟨p, fo⟩ := ctx
  cases p <;> cases fo <;> rfl

theorem extractContext_placeholder_has_user (f : FieldFeatures) (e : InputElem)
    (ctx : ElemCtx) : (extractContext f e ctx).placeholder_has_user = f.placeholder_has_user := by
  obtain ⟨p, fo⟩ := ctx
  cases p <;> cases fo <;> rfl

theorem extractContext_placeholder_has_email (f : FieldFeatures) (e : InputElem)
    (ctx : ElemCtx) : (extractContext f e ctx).placeholder_has_email = f.placeholder_has_email := by
  obtain ⟨p, fo⟩ := ctx
  cases p <;> cases fo <;> rfl

theorem extractContext_placeholder_has_pass (f : FieldFeatures) (e : InputElem)
    (ctx : ElemCtx) : (extractContext f e ctx).placeholder_has_pass = f.placeholder_has_pass := by
  obtain ⟨p, fo⟩ := ctx
  cases p <;> cases fo <;> rfl

theorem extractContext_aria_label_has_user (f : FieldFeatures) (e : InputElem)
    (ctx : ElemCtx) : (extractContext f e ctx).aria_label_has_user = f.aria_label_has_user := by
  obtain ⟨p, fo⟩ := ctx
  cases p <;> cases fo <;> rfl

theorem extractContext_aria_label_has_email (f : FieldFeatures) (e : InputElem)
    (ctx : ElemCtx) : (extractContext f e ctx).aria_label_has_email = f.aria_label_has_email := by
  obtain ⟨p, fo⟩ := ctx
  cases p <;> cases fo <;> rfl

theorem extractContext_aria_label_has_pass (f : FieldFeatures) (e : InputElem)
    (ctx : ElemCtx) : (extractContext f e ctx).aria_label_has_pass = f.aria_label_has_pass := by
  obtain ⟨p, fo⟩ := ctx
  cases p <;> cases fo <;> rfl

theorem extractContext_name_length (f : FieldFeatures) (e : InputElem)
    (ctx : ElemCtx) : (extractContext f e ctx).name_length = f.name_length := by
  obtain ⟨p, fo⟩ := ctx
  cases p <;> cases fo <;> rfl

theorem extractContext_id_length (f : FieldFeatures) (e : InputElem)
    (ctx : ElemCtx) : (extractContext f e ctx).id_length = f.id_length := by
  obtain ⟨p, fo⟩ := ctx
  cases p <;> cases fo <;> rfl

theorem extractContext_placeholder_length (f : FieldFeatures) (e : InputElem)
    (ctx : ElemCtx) : (extractContext f e ctx).placeholder_length = f.placeholder_length := by
  obtain ⟨p, fo⟩ := ctx
  cases p <;> cases fo <;> rfl

theorem extractContext_aria_label_length (f : FieldFeatures) (e : InputElem)
    (ctx : ElemCtx) : (extractContext f e ctx).aria_label_length = f.aria_label_length := by
  obtain ⟨p, fo⟩ := ctx
  cases p <;> cases fo <;> rfl

/-- C8 counterexample: the schema has login-category score slots for the
name and id sources but none for the placeholder and accessible-label
sources, so there is no "match score for each of the four target
categories" for those two sources. -/
theorem placeholder_login_slot_missing :
    "name_has_login" ∈ FieldFeatures.featureNames ∧
    "id_has_login" ∈ FieldFeatures.featureNames ∧
    "placeholder_has_login" ∉ FieldFeatures.featureNames ∧
    "aria_label_has_login" ∉ FieldFeatures.featureNames := by
  refine ⟨by decide, by decide, by decide, by decide⟩

/-- C8 (amended): the name and id attributes each get four category
scores (user, login, email, password) and a length divided by 50; the
placeholder and aria-label texts each get three category scores (user,
email, password — no login score) and a length divided by 100; every
score lies in [0, 1]. -/
theorem textual_scores_amended (e : InputElem) (ctx : ElemCtx) :
    (extractFromElement e ctx).name_has_user =
      matchScore ((e.get "name").getD "") usernamePatterns ∧
    (extractFromElement e ctx).name_has_login =
      matchScore ((e.get "name").getD "") loginPatterns ∧
    (extractFromElement e ctx).name_has_email =
      matchScore ((e.get "name").getD "") emailPatterns ∧
    (extractFromElement e ctx).name_has_pass =
      matchScore ((e.get "name").getD "") passwordPatterns ∧
    (extractFromElement e ctx).name_length =
      (((e.get "name").getD "").length : ℚ) / 50 ∧
    (extractFromElement e ctx).id_has_user =
      matchScore ((e.get "id").getD "") usernamePatterns ∧
    (extractFromElement e ctx).id_has_login =
      matchScore ((e.get "id").getD "") loginPatterns ∧
    (extractFromElement e ctx).id_has_email =
      matchScore ((e.get "id").getD "") emailPatterns ∧
    (extractFromElement e ctx).id_has_pass =
      matchScore ((e.get "id").getD "") passwordPatterns ∧
    (extractFromElement e ctx).id_length =
      (((e.get "id").getD "").length : ℚ) / 50 ∧
    (extractFromElement e ctx).placeholder_has_user =
      matchScore ((e.get "placeholder").getD "") usernamePatterns ∧
    (extractFromElement e ctx).placeholder_has_email =
      matchScore ((e.get "placeholder").getD "") emailPatterns ∧
    (extractFromElement e ctx).placeholder_has_pass =
      matchScore ((e.get "placeholder").getD "") passwordPatterns ∧
    (extractFromElement e ctx).placeholder_length =
      (((e.get "placeholder").getD "").length : ℚ) / 100 ∧
    (extractFromElement e ctx).aria_label_has_user =
      matchScore ((e.get "aria-label").getD "") usernamePatterns ∧
    (extractFromElement e ctx).aria_label_has_email =
      matchScore ((e.get "aria-label").getD "") emailPatterns ∧
    (extractFromElement e ctx).aria_label_has_pass =
      matchScore ((e.get "aria-label").getD "") passwordPatterns ∧
    (extractFromElement e ctx).aria_label_length =
      (((e.get "aria-label").getD "").length : ℚ) / 100 ∧
    (∀ x ∈ [(extractFromElement e ctx).name_has_user,
       (extractFromElement e ctx).name_has_login,
       (extractFromElement e ctx).name_has_email,
       (extractFromElement e ctx).name_has_pass,
       (extractFromElement e ctx).id_has_user,
       (extractFromElement e ctx).id_has_login,
       (extractFromElement e ctx).id_has_email,
       (extractFromElement e ctx).id_has_pass,
       (extractFromElement e ctx).placeholder_has_user,
       (extractFromElement e ctx).placeholder_has_email,
       (extractFromElement e ctx).placeholder_has_pass,
       (extractFromElement e ctx).aria_label_has_user,
       (extractFromElement e ctx).aria_label_has_email,
       (extractFromElement e ctx).aria_label_has_pass], 0 ≤ x ∧ x ≤ 1) := by
  refine ⟨by simp only [extractFromElement, extractContext_name_has_user],
    by simp only [extractFromElement, extractContext_name_has_login],
    by simp only [extractFromElement, extractContext_name_has_email],
    by simp only [extractFromElement, extractContext_name_has_pass],
    by simp only [extractFromElement, extractContext_name_length],
    by simp only [extractFromElement, extractContext_id_has_user],
    by simp only [extractFromElement, extractContext_id_has_login],
    by simp only [extractFromElement, extractContext_id_has_email],
    by simp only [extractFromElement, extractContext_id_has_pass],
    by simp only [extractFromElement, extractContext_id_length],
    by simp only [extractFromElement, extractContext_placeholder_has_user],
    by simp only [extractFromElement, extractContext_placeholder_has_email],
    by simp only [extractFromElement, extractContext_placeholder_has_pass],
    by simp only [extractFromElement, extractContext_placeholder_length],
    by simp only [extractFromElement, extractContext_aria_label_has_user],
    by simp only [extractFromElement, extractContext_aria_label_has_email],
    by simp only [extractFromElement, extractContext_aria_label_has_pass],
    by simp only [extractFromElement, extractContext_aria_label_length],
    ?_⟩
  intro x hx
  simp only [List.mem_cons, List.not_mem_nil, or_false] at hx
  rcases hx with rfl | rfl | rfl | rfl | rfl | rfl | rfl | rfl | rfl | rfl |
    rfl | rfl | rfl | rfl
  all_goals simp only [extractFromElement, extractContext_name_has_user, extractContext_name_has_login, extractContext_name_has_email, extractContext_name_has_pass, extractContext_id_has_user, extractContext_id_has_login, extractContext_id_has_email, extractContext_id_has_pass, extractContext_placeholder_has_user, extractContext_placeholder_has_email, extractContext_placeholder_has_pass, extractContext_aria_label_has_user, extractContext_aria_label_has_email, extractContext_aria_label_has_pass]
  all_goals exact ⟨matchScore_nonneg _ _, matchScore_le_one _ _⟩

/-- C8 witness: bounds of one concrete produced score. -/
theorem textual_scores_amended_witness :
    0 ≤ (extractFromElement c7Elem ⟨none, none⟩).placeholder_has_user ∧
    (extractFromElement c7Elem ⟨none, none⟩).placeholder_has_user ≤ 1 := by
  have h := textual_scores_amended c7Elem ⟨none, none⟩
  exact h.2.2.2.2.2.2.2.2.2.2.2.2.2.2.2.2.2.2
    (extractFromElement c7Elem ⟨none, none⟩).placeholder_has_user (by simp)

theorem extractFeaturesFromDoc_eq (doc : List (InputElem × ElemCtx)) :
    extractFeaturesFromDoc doc =
      (doc.filter fun ec => !excludedTypes.contains (inputTypeOf ec.1)).map
        fun ec => mkFieldRecord ec.1 ec.2 := by
  induction doc with
  | nil => rfl
  | cons hd tl ih =>
    obtain ⟨e, c⟩ := hd
    by_cases h : inputTypeOf e ∈ excludedTypes <;>
      simp [extractFeaturesFromDoc, h, ih, List.filter_cons]

/-- C9: each catalog entry yields exactly one sample per input element
whose effective type (default "text", lower-cased) is not excluded,
labelled by looking the element's name attribute up in the entry's
label map with default "none"; an excluded-type element yields zero
records; every negative-example sample is labelled "none". -/
theorem buildDataset_records :
    (∀ site : SiteEntry,
      siteSamples site =
        (site.doc.filter fun ec =>
            !excludedTypes.contains (inputTypeOf ec.1)).map
          fun ec =>
            { features := { fields := extractFromElement ec.1 ec.2 }
              label :=
                (site.labels.lookup ((ec.1.get "name").getD "")).getD "none"
              source := site.name
              element_id := (ec.1.get "id").getD ""
              element_name := (ec.1.get "name").getD "" }) ∧
    (∀ (e : InputElem) (ctx : ElemCtx) (rest : List (InputElem × ElemCtx)),
      excludedTypes.contains (inputTypeOf e) = true →
      extractFeaturesFromDoc ((e, ctx) :: rest) =
        extractFeaturesFromDoc rest) ∧
    (∀ ex : NegEntry, ∀ s ∈ negSamples ex, s.label = "none") := by
  refine ⟨fun site => ?_, fun e ctx rest h => ?_, fun ex s hs => ?_⟩
  · simp only [siteSamples, extractFeaturesFromDoc_eq, List.map_map]
    rfl
  · have h' : inputTypeOf e ∈ excludedTypes := by simpa using h
    simp [extractFeaturesFromDoc, h']
  · simp only [negSamples, List.mem_map] at hs
    obtain ⟨r, -, rfl⟩ := hs
    rfl

/-- Concrete hidden input for the C9 witness: the csrf field of the
spec's exclusion-rule test. -/
def c9Hidden : InputElem := ⟨[("type", "hidden"), ("name", "csrf")]⟩

def c9NegElem : InputElem := ⟨[("type", "text"), ("name", "q")]⟩

def c9Neg : NegEntry := ⟨"Search Form", [(c9NegElem, ⟨none, none⟩)]⟩

def c9NegSample : TrainingSample :=
  { features := { fields := extractFromElement c9NegElem ⟨none, none⟩ }
    label := "none", source := "Search Form"
    element_id := "", element_name := "q" }

/-- C9 witness: a hidden csrf input yields zero records, and the
search-form negative sample is labelled "none". -/
theorem buildDataset_records_witness :
    extractFeaturesFromDoc [(c9Hidden, ⟨none, none⟩)] = [] ∧
    c9NegSample.label = "none" :=
  ⟨(buildDataset_records.2.1 c9Hidden ⟨none, none⟩ [] (by decide)).trans rfl,
   buildDataset_records.2.2 c9Neg c9NegSample
     (by rw [show negSamples c9Neg = [c9NegSample] from rfl]
         exact List.mem_singleton.mpr rfl)⟩

/-- C10: the `dir()` copy loop installs the base's bound `to_vector`
onto every synthesized feature instance, so calling `to_vector` on a
synthesized sample returns the base's original 45-slot vector (the
perturbed field values are invisible), and `save_dataset` writes the
base's vector for every synthesized sample. -/
theorem synth_toVector_hijack (base : TrainingSample) (r : AugRand) :
    (synthFeatures base r).vecOverride = some base.features.callToVector ∧
    (synthSample base r).features.callToVector =
      base.features.callToVector ∧
    (base.features.vecOverride = none →
      (synthSample base r).features.callToVector =
        base.features.fields.toVector) ∧
    saveDataset [synthSample base r] =
      [{ features := base.features.callToVector
         label := base.label
         source := base.source ++ "_augmented"
         element_id := base.element_id
         element_name := base.element_name }] := by
  have hov : (synthFeatures base r).vecOverride =
      some base.features.callToVector := by
    simp only [synthFeatures, copyFeatureAttrs]
    split_ifs <;> rfl
  have hcall : (synthSample base r).features.callToVector =
      base.features.callToVector := by
    show (synthFeatures base r).callToVector = _
    simp only [PyFeatures.callToVector, hov, Option.getD_some]
  refine ⟨hov, hcall,
    fun h => hcall.trans (by simp [PyFeatures.callToVector, h]), ?_⟩
  simp only [saveDataset, List.map_cons, List.map_nil, hcall]
  rfl

/-- Concrete base and draws for the C10 witness: an extractor-produced
feature instance (no `to_vector` shadowing yet). -/
def c10Base : TrainingSample :=
  { features := { fields := { type_text := 1, auto_username := 1 } }
    label := "username", source := "GitHub Login" }

def c10Rand : AugRand := ⟨0, 1, 1, 1 / 2, 1 / 2⟩

/-- C10 witness: the synthesized sample's `to_vector` call returns the
base's original vector. -/
theorem synth_toVector_hijack_witness :
    (synthSample c10Base c10Rand).features.callToVector =
      c10Base.features.fields.toVector :=
  (synth_toVector_hijack c10Base c10Rand).2.2.1 rfl

end Peach
